import Mathlib

/-!
Verification of the bidirectional 1:1 event queue of `src/event/src/bidir.rs`.

The shared store is `RefCell<(VecDeque<Tp>, VecDeque<Ts>)>` (line 14): the
first deque holds the events the primary peer receives (its inbox, written
by the secondary), the second holds the events the secondary peer receives.
A `VecDeque` used only through `push_back`, full drain (`mem::replace` with
an empty deque followed by in-order iteration) and `is_empty` is modelled
as a `List` with append-at-the-end, in-order drain and emptiness test.

Operations that in Rust mutate through the `RefCell` are modelled as
explicit state-passing functions `Store → result × Store`.  A second,
borrow-flagged model (`CellStore`) makes the `RefCell` run-time borrow
check explicit for the reentrancy claims.
-/

/-- The dual-buffer store: the tuple `(VecDeque<Tp>, VecDeque<Ts>)` inside
the `RefCell` of `Queue` (bidir.rs line 14).  `fst` is the primary's inbox,
`snd` the secondary's inbox. -/
structure Store (Tp Ts : Type) where
  fst : List Tp
  snd : List Ts
deriving DecidableEq, Repr

/-- Modelled from the spec: the delivery-result type `EmitResult` lives in
the event crate's traits module, which is not among the sources here.  Per
the spec an emit "returns a delivery result; for this 1:1, non-multicast
primitive the result is always delivered", while multicast variants sharing
the type may report that an event was not (or only partially) delivered. -/
inductive EmitResult (T : Type) where
  | Delivered : EmitResult T
  | Undelivered : T → EmitResult T
deriving DecidableEq, Repr

namespace Queue

/-- `Queue::bounce` (bidir.rs lines 44-56): drains the primary inbox via
`mem::replace`, applies `f` with `flat_map` over the `Option` results and
`extend`s the secondary-bound buffer with the survivors. -/
def bounce {Tp Ts : Type} (f : Tp → Option Ts) (s : Store Tp Ts) : Store Tp Ts :=
  ⟨[], s.snd ++ s.fst.filterMap f⟩

/-- `QueueInterfaceCommon::buffer_is_empty` for `Queue` (lines 78-85):
`self.0.borrow().1.is_empty()`; the shared borrow leaves the store intact,
so the model returns the store unchanged. -/
def buffer_is_empty {Tp Ts : Type} (s : Store Tp Ts) : Bool × Store Tp Ts :=
  (s.snd.isEmpty, s)

/-- `Emitter::emit` for `Queue` (lines 96-102): pushes the owned event onto
the back of the second deque and returns `EmitResult::Delivered`. -/
def emit {Tp Ts : Type} (event : Ts) (s : Store Tp Ts) : EmitResult Ts × Store Tp Ts :=
  (EmitResult.Delivered, ⟨s.fst, s.snd ++ [event]⟩)

/-- `Listen::map` for `Queue` (lines 124-129): `mem::replace`s the first
deque with an empty one and collects `f` over its elements in order. -/
def map {Tp Ts R : Type} (f : Tp → R) (s : Store Tp Ts) : List R × Store Tp Ts :=
  (s.fst.map f, ⟨[], s.snd⟩)

/-- `Listen::peek` for `Queue` (lines 132-134): `self.map(Clone::clone)`. -/
def peek {Tp Ts : Type} (s : Store Tp Ts) : List Tp × Store Tp Ts :=
  map id s

/-- `Listen::with` for `Queue` (lines 116-121): `f(&self.peek()[..])`. -/
def with_ {Tp Ts R : Type} (f : List Tp → R) (s : Store Tp Ts) : R × Store Tp Ts :=
  let p := peek s
  (f p.1, p.2)

/-- A sequence of `emit` calls on the primary endpoint, in order. -/
def emitAll {Tp Ts : Type} (es : List Ts) (s : Store Tp Ts) : Store Tp Ts :=
  es.foldl (fun st e => (emit e st).2) s

end Queue

namespace Secondary

/-- `Secondary::bounce` (bidir.rs lines 63-75): same as `Queue::bounce`
with the two deques' roles swapped. -/
def bounce {Tp Ts : Type} (f : Ts → Option Tp) (s : Store Tp Ts) : Store Tp Ts :=
  ⟨s.fst ++ s.snd.filterMap f, []⟩

/-- `QueueInterfaceCommon::buffer_is_empty` for `Secondary` (lines 87-94):
`(self.0).0.borrow().0.is_empty()`. -/
def buffer_is_empty {Tp Ts : Type} (s : Store Tp Ts) : Bool × Store Tp Ts :=
  (s.fst.isEmpty, s)

/-- `Emitter::emit` for `Secondary` (lines 104-110): pushes the owned event
onto the back of the first deque and returns `EmitResult::Delivered`. -/
def emit {Tp Ts : Type} (event : Tp) (s : Store Tp Ts) : EmitResult Tp × Store Tp Ts :=
  (EmitResult.Delivered, ⟨s.fst ++ [event], s.snd⟩)

/-- `Listen::map` for `Secondary` (lines 149-154): drains the second deque
and collects `f` over its elements in order. -/
def map {Tp Ts R : Type} (f : Ts → R) (s : Store Tp Ts) : List R × Store Tp Ts :=
  (s.snd.map f, ⟨s.fst, []⟩)

/-- `Listen::peek` for `Secondary` (lines 156-159): `self.map(Clone::clone)`. -/
def peek {Tp Ts : Type} (s : Store Tp Ts) : List Ts × Store Tp Ts :=
  map id s

/-- `Listen::with` for `Secondary` (lines 141-146): `f(&self.peek()[..])`. -/
def with_ {Tp Ts R : Type} (f : List Ts → R) (s : Store Tp Ts) : R × Store Tp Ts :=
  let p := peek s
  (f p.1, p.2)

/-- A sequence of `emit` calls on the secondary endpoint, in order. -/
def emitAll {Tp Ts : Type} (es : List Tp) (s : Store Tp Ts) : Store Tp Ts :=
  es.foldl (fun st e => (emit e st).2) s

end Secondary

/-- Swapping the two buffers: relates a `Secondary` view on `(a, b)` to a
primary `Queue` view on `(b, a)`. -/
def Store.swap {Tp Ts : Type} (s : Store Tp Ts) : Store Ts Tp :=
  ⟨s.snd, s.fst⟩

/-- Effect of a sequence of primary emits: the primary inbox is untouched
and the emitted events are appended, in order, to the secondary inbox. -/
theorem queueEmitAll_eq {Tp Ts : Type} (es : List Ts) (s : Store Tp Ts) :
    Queue.emitAll es s = ⟨s.fst, s.snd ++ es⟩ := by
  induction es generalizing s with
  | nil => simp [Queue.emitAll]
  | cons e es ih =>
    simp only [Queue.emitAll, List.foldl_cons] at *
    rw [show (Queue.emit e s).2 = ⟨s.fst, s.snd ++ [e]⟩ from rfl, ih]
    simp

/-- Effect of a sequence of secondary emits: the secondary inbox is
untouched and the events are appended, in order, to the primary inbox. -/
theorem secondaryEmitAll_eq {Tp Ts : Type} (es : List Tp) (s : Store Tp Ts) :
    Secondary.emitAll es s = ⟨s.fst ++ es, s.snd⟩ := by
  induction es generalizing s with
  | nil => simp [Secondary.emitAll]
  | cons e es ih =>
    simp only [Secondary.emitAll, List.foldl_cons] at *
    rw [show (Secondary.emit e s).2 = ⟨s.fst ++ [e], s.snd⟩ from rfl, ih]
    simp

/-- C1: FIFO delivery — a sequence of emits on one endpoint followed by a
peek (or map) on the other endpoint, with no intervening drain, yields
exactly the emitted elements (resp. their images) in emission order. -/
theorem fifo_delivery {Tp Ts R S : Type} (s s2 : Store Tp Ts)
    (es : List Ts) (fs : List Tp) (g : Ts → R) (k : Tp → S)
    (h : s.snd = []) (h2 : s2.fst = []) :
    (Secondary.peek (Queue.emitAll es s)).1 = es ∧
    (Secondary.map g (Queue.emitAll es s)).1 = es.map g ∧
    (Queue.peek (Secondary.emitAll fs s2)).1 = fs ∧
    (Queue.map k (Secondary.emitAll fs s2)).1 = fs.map k := by
  rw [queueEmitAll_eq, secondaryEmitAll_eq]
  refine ⟨?_, ?_, ?_, ?_⟩ <;>
    simp [Secondary.peek, Secondary.map, Queue.peek, Queue.map, h, h2]

/-- Witness for C1 at concrete inputs. -/
theorem fifo_delivery_witness :
    ((⟨[], []⟩ : Store Nat Nat).snd = [] ∧ (⟨[], []⟩ : Store Nat Nat).fst = []) ∧
    (Secondary.peek (Queue.emitAll [1, 2, 3] (⟨[], []⟩ : Store Nat Nat))).1 = [1, 2, 3] ∧
    (Secondary.map (· + 1) (Queue.emitAll [1, 2, 3] (⟨[], []⟩ : Store Nat Nat))).1 = [2, 3, 4] ∧
    (Queue.peek (Secondary.emitAll [4, 5] (⟨[], []⟩ : Store Nat Nat))).1 = [4, 5] ∧
    (Queue.map (· * 2) (Secondary.emitAll [4, 5] (⟨[], []⟩ : Store Nat Nat))).1 = [8, 10] :=
  ⟨⟨rfl, rfl⟩, fifo_delivery ⟨[], []⟩ ⟨[], []⟩ [1, 2, 3] [4, 5] (· + 1) (· * 2) rfl rfl⟩

/-- C2: peek and map are draining — the second of two consecutive drains
(any combination of peek/map) on the same endpoint with no intervening
emit returns the empty sequence, on either endpoint. -/
theorem drains_are_destructive {Tp Ts R R2 : Type} (s : Store Tp Ts)
    (f : Tp → R) (g : Tp → R2) (f2 : Ts → R) (g2 : Ts → R2) :
    (Queue.peek (Queue.peek s).2).1 = [] ∧
    (Queue.map g (Queue.map f s).2).1 = [] ∧
    (Queue.peek (Queue.map f s).2).1 = [] ∧
    (Queue.map g (Queue.peek s).2).1 = [] ∧
    (Secondary.peek (Secondary.peek s).2).1 = [] ∧
    (Secondary.map g2 (Secondary.map f2 s).2).1 = [] ∧
    (Secondary.peek (Secondary.map f2 s).2).1 = [] ∧
    (Secondary.map g2 (Secondary.peek s).2).1 = [] := by
  refine ⟨?_, ?_, ?_, ?_, ?_, ?_, ?_, ?_⟩ <;>
    simp [Queue.peek, Queue.map, Secondary.peek, Secondary.map]

/-- C3: bounce with the Some-wrapping identity transform empties the inbox
and appends its former contents, unchanged and in order, to the outbox. -/
theorem bounce_identity {T : Type} (s : Store T T) :
    Queue.bounce (fun x => some x) s = ⟨[], s.snd ++ s.fst⟩ ∧
    Secondary.bounce (fun x => some x) s = ⟨s.fst ++ s.snd, []⟩ := by
  constructor <;> simp [Queue.bounce, Secondary.bounce]

/-- C4: bounce with an all-dropping transform empties the inbox and leaves
the outbox exactly as it was. -/
theorem bounce_drop_all {Tp Ts : Type} (s : Store Tp Ts) :
    Queue.bounce (fun _ => (none : Option Ts)) s = ⟨[], s.snd⟩ ∧
    Secondary.bounce (fun _ => (none : Option Tp)) s = ⟨s.fst, []⟩ := by
  constructor <;> simp [Queue.bounce, Secondary.bounce]

/-- C5: buffer_is_empty is true exactly when the endpoint's outbox holds
zero elements, and the call leaves the store unchanged. -/
theorem buffer_is_empty_spec {Tp Ts : Type} (s : Store Tp Ts) :
    ((Queue.buffer_is_empty s).1 = true ↔ s.snd = []) ∧
    (Queue.buffer_is_empty s).2 = s ∧
    ((Secondary.buffer_is_empty s).1 = true ↔ s.fst = []) ∧
    (Secondary.buffer_is_empty s).2 = s := by
  refine ⟨?_, rfl, ?_, rfl⟩ <;>
    simp [Queue.buffer_is_empty, Secondary.buffer_is_empty, List.isEmpty_iff]

/-- C6: emit appends the event to the endpoint's outbox and always returns
the Delivered result, on either endpoint. -/
theorem emit_always_delivered {Tp Ts : Type} (s : Store Tp Ts) (e : Ts) (e2 : Tp) :
    Queue.emit e s = (EmitResult.Delivered, ⟨s.fst, s.snd ++ [e]⟩) ∧
    Secondary.emit e2 s = (EmitResult.Delivered, ⟨s.fst ++ [e2], s.snd⟩) :=
  ⟨rfl, rfl⟩

/-- C7: map is the transform-fused form of peek — map f returns exactly f
mapped over what peek would return and leaves the same final state. -/
theorem map_is_fused_peek {Tp Ts R R2 : Type} (s : Store Tp Ts)
    (f : Tp → R) (g : Ts → R2) :
    (Queue.map f s).1 = ((Queue.peek s).1).map f ∧
    (Queue.map f s).2 = (Queue.peek s).2 ∧
    (Secondary.map g s).1 = ((Secondary.peek s).1).map g ∧
    (Secondary.map g s).2 = (Secondary.peek s).2 := by
  refine ⟨?_, rfl, ?_, rfl⟩ <;>
    simp [Queue.map, Queue.peek, Secondary.map, Secondary.peek]

/-- C9: primary/secondary symmetry — every Secondary operation on state
(a, b) produces the mirrored result and mirrored final state of the
corresponding Queue operation on (b, a). -/
theorem secondary_mirrors_queue {Tp Ts R R2 : Type} (s : Store Tp Ts)
    (ep : Tp) (f : Ts → R) (g : List Ts → R2) (b : Ts → Option Tp) :
    (Secondary.emit ep s).1 = (Queue.emit ep s.swap).1 ∧
    (Secondary.emit ep s).2 = ((Queue.emit ep s.swap).2).swap ∧
    (Secondary.peek s).1 = (Queue.peek s.swap).1 ∧
    (Secondary.peek s).2 = ((Queue.peek s.swap).2).swap ∧
    (Secondary.map f s).1 = (Queue.map f s.swap).1 ∧
    (Secondary.map f s).2 = ((Queue.map f s.swap).2).swap ∧
    (Secondary.with_ g s).1 = (Queue.with_ g s.swap).1 ∧
    (Secondary.with_ g s).2 = ((Queue.with_ g s.swap).2).swap ∧
    Secondary.bounce b s = (Queue.bounce b s.swap).swap ∧
    (Secondary.buffer_is_empty s).1 = (Queue.buffer_is_empty s.swap).1 ∧
    (Secondary.buffer_is_empty s).2 = ((Queue.buffer_is_empty s.swap).2).swap :=
  ⟨rfl, rfl, rfl, rfl, rfl, rfl, rfl, rfl, rfl, rfl, rfl⟩

/-- C10: buffer-disjoint frame property — emit changes only the endpoint's
outbox (inbox untouched); peek/map/with change only the endpoint's inbox
(emptied) and leave its outbox untouched. -/
theorem frame_property {Tp Ts R R2 R3 R4 : Type} (s : Store Tp Ts)
    (e : Ts) (e2 : Tp) (f : Tp → R) (g : Ts → R2)
    (wf : List Tp → R3) (wg : List Ts → R4) :
    (Queue.emit e s).2.fst = s.fst ∧
    (Queue.emit e s).2.snd = s.snd ++ [e] ∧
    (Secondary.emit e2 s).2.snd = s.snd ∧
    (Secondary.emit e2 s).2.fst = s.fst ++ [e2] ∧
    (Queue.peek s).2 = ⟨[], s.snd⟩ ∧
    (Queue.map f s).2 = ⟨[], s.snd⟩ ∧
    (Queue.with_ wf s).2 = ⟨[], s.snd⟩ ∧
    (Secondary.peek s).2 = ⟨s.fst, []⟩ ∧
    (Secondary.map g s).2 = ⟨s.fst, []⟩ ∧
    (Secondary.with_ wg s).2 = ⟨s.fst, []⟩ :=
  ⟨rfl, rfl, rfl, rfl, rfl, rfl, rfl, rfl, rfl, rfl⟩

/-- The fault a `RefCell` raises when `borrow_mut` is called while another
borrow of the same cell is live: an unrecoverable run-time fault. -/
inductive PanicE where
  | borrowPanic : PanicE
deriving DecidableEq, Repr

/-- The store together with the `RefCell` borrow flag: `borrowed` is true
while a mutable borrow of the cell is live.  Used to model the run-time
exclusive-access check for reentrant calls. -/
structure CellStore (Tp Ts : Type) where
  fst : List Tp
  snd : List Ts
  borrowed : Bool
deriving DecidableEq, Repr

/-- `Queue::emit` against the borrow-flagged store: `borrow_mut` faults if
a borrow is live (line 99, `self.0.borrow_mut()`), otherwise the event is
pushed and the temporary borrow is released at the end of the statement. -/
def emitChecked {Tp Ts : Type} (event : Ts) (s : CellStore Tp Ts) :
    Except PanicE (EmitResult Ts × CellStore Tp Ts) :=
  if s.borrowed then .error .borrowPanic
  else .ok (.Delivered, ⟨s.fst, s.snd ++ [event], false⟩)

/-- `Queue::peek`/`map` against the borrow-flagged store: the drain takes a
temporary `borrow_mut` (line 128) which is released before returning, so
the resulting store is unborrowed. -/
def peekChecked {Tp Ts : Type} (s : CellStore Tp Ts) :
    Except PanicE (List Tp × CellStore Tp Ts) :=
  if s.borrowed then .error .borrowPanic
  else .ok (s.fst, ⟨[], s.snd, false⟩)

/-- The drain-transform-extend loop of `Queue::bounce` (lines 51-55) with
an effectful transform: the closure may itself operate on the same store
(through captured references), so it receives and returns the cell state.
While the loop runs, the state it threads has `borrowed = true`. -/
def runBounceLoop {Tp Ts : Type}
    (f : Tp → CellStore Tp Ts → Except PanicE (Option Ts × CellStore Tp Ts)) :
    List Tp → CellStore Tp Ts → Except PanicE (CellStore Tp Ts)
  | [], s => .ok s
  | x :: xs, s =>
    match f x s with
    | .error p => .error p
    | .ok (some y, s1) => runBounceLoop f xs ⟨s1.fst, s1.snd ++ [y], s1.borrowed⟩
    | .ok (none, s1) => runBounceLoop f xs s1

/-- `Queue::bounce` against the borrow-flagged store (lines 44-56): takes
`borrow_mut` for the whole call — the borrow is live while the transform
runs — `mem::replace`s the inbox with an empty deque, runs the transform
over the old contents extending the outbox with the `some` results, and
releases the borrow on return. -/
def bounceChecked {Tp Ts : Type}
    (f : Tp → CellStore Tp Ts → Except PanicE (Option Ts × CellStore Tp Ts))
    (s : CellStore Tp Ts) : Except PanicE (CellStore Tp Ts) :=
  if s.borrowed then .error .borrowPanic
  else
    match runBounceLoop f s.fst ⟨[], s.snd, true⟩ with
    | .error p => .error p
    | .ok s1 => .ok ⟨s1.fst, s1.snd, false⟩

/-- `Queue::with` against the borrow-flagged store (lines 116-121):
`f(&self.peek()[..])` — `peek` finishes, its temporary borrow is released,
and only then is the closure invoked on the materialized vector, so the
closure runs with no borrow of the cell live. -/
def withChecked {Tp Ts R : Type}
    (f : List Tp → CellStore Tp Ts → Except PanicE (R × CellStore Tp Ts))
    (s : CellStore Tp Ts) : Except PanicE (R × CellStore Tp Ts) :=
  match peekChecked s with
  | .error p => .error p
  | .ok (v, s1) => f v s1

/-- A bounce transform that reentrantly calls `emit` on the same store and
drops the element. -/
def emitInBounce {Tp Ts : Type} (e : Ts) :
    Tp → CellStore Tp Ts → Except PanicE (Option Ts × CellStore Tp Ts) :=
  fun _x st =>
    match emitChecked e st with
    | .error p => .error p
    | .ok (_, st1) => .ok (none, st1)

/-- A `with` closure that reentrantly calls `emit` on the same store and
returns the drained snapshot it was handed. -/
def emitInWith {Tp Ts : Type} (e : Ts) :
    List Tp → CellStore Tp Ts → Except PanicE (List Tp × CellStore Tp Ts) :=
  fun v st =>
    match emitChecked e st with
    | .error p => .error p
    | .ok (_, st1) => .ok (v, st1)

/-- C8 counterexample: a closure passed to `with` that calls `emit` on the
same store does NOT fault — `with` invokes the closure only after `peek`
has completed and released its borrow, so the emit succeeds and the call
returns normally, contradicting the claim that it panics. -/
theorem with_reentrant_emit_no_fault :
    withChecked (emitInWith (7 : Nat)) (⟨[1], [], false⟩ : CellStore Nat Nat) =
      .ok ([1], ⟨[], [7], false⟩) ∧
    withChecked (emitInWith (7 : Nat)) (⟨[1], [], false⟩ : CellStore Nat Nat) ≠
      .error .borrowPanic := by
  constructor
  · rfl
  · intro h
    exact Except.noConfusion h

/-- C8 (amended): a transform passed to `bounce` that reentrantly calls
`emit` on the same store hits the live exclusive borrow and faults, for
every unborrowed state whose inbox is non-empty; a closure passed to
`with` that calls `emit` runs after the drain's borrow is released, so it
succeeds without fault and the emit takes effect. -/
theorem reentrant_mutation_fault {Tp Ts : Type} (s : CellStore Tp Ts) (e : Ts)
    (hb : s.borrowed = false) (hne : s.fst ≠ []) :
    bounceChecked (emitInBounce e) s = .error .borrowPanic ∧
    withChecked (emitInWith e) s = .ok (s.fst, ⟨[], s.snd ++ [e], false⟩) := by
  constructor
  · cases hfst : s.fst with
    | nil => exact absurd hfst hne
    | cons x xs =>
      simp [bounceChecked, hb, hfst, runBounceLoop, emitInBounce, emitChecked]
  · simp [withChecked, peekChecked, hb, emitInWith, emitChecked]

/-- Witness for the amended C8 at a concrete input. -/
theorem reentrant_mutation_fault_witness :
    ((⟨[1], [], false⟩ : CellStore Nat Nat).borrowed = false ∧
     (⟨[1], [], false⟩ : CellStore Nat Nat).fst ≠ []) ∧
    (bounceChecked (emitInBounce (7 : Nat)) (⟨[1], [], false⟩ : CellStore Nat Nat) =
      .error .borrowPanic ∧
     withChecked (emitInWith (7 : Nat)) (⟨[1], [], false⟩ : CellStore Nat Nat) =
      .ok ([1], ⟨[], [7], false⟩)) :=
  ⟨⟨rfl, by decide⟩, reentrant_mutation_fault ⟨[1], [], false⟩ 7 rfl (by decide)⟩
